import Mathlib

/-!
Formal model of `Sources/CTerminalHelpers/CTerminalHelpers.c`.

The source is a single C helper:

  int terminal_set_winsize(int fd, const struct winsize *ws) {
    return ioctl(fd, TIOCSWINSZ, ws);
  }

We embed the wrapper over an explicit operating-system state: a descriptor
table mapping file descriptors to terminal devices (or to open non-terminal
files), a device table holding each terminal's kernel window-size record and
its foreground process group, and a log of delivered signals.  The kernel's
`TIOCSWINSZ` control operation and the caller-facing `SetWindowSize` API are
modelled from the specification, since only the C translation unit is in the
repository sources.
-/

/-- POSIX error code for a bad file descriptor. -/
def EBADF : Nat := 9

/-- POSIX error code for an inappropriate ioctl target (not a terminal). -/
def ENOTTY : Nat := 25

/-- POSIX error code for a bad user-space address. -/
def EFAULT : Nat := 14

/-- Signal number delivered on a window-size change. -/
def SIGWINCH : Nat := 28

/-- The C `struct winsize`: row count, column count, pixel width, pixel
height.  All fields are unsigned in C, hence `Nat` here. -/
structure winsize where
  ws_row : Nat
  ws_col : Nat
  ws_xpixel : Nat
  ws_ypixel : Nat
  deriving DecidableEq, Repr

/-- A terminal (or pseudo-terminal) device as the kernel holds it: its
window-size record and the process group that owns the controlling
terminal, if any. -/
structure TerminalDevice where
  geometry : winsize
  foregroundGroup : Option Nat
  deriving DecidableEq, Repr

/-- What an open file descriptor refers to: a terminal-class device
(identified by a device id, so a pseudo-terminal master and its slave can
share one device) or some open non-terminal file. -/
inductive FdTarget where
  | terminal (dev : Nat) : FdTarget
  | nonTerminal : FdTarget
  deriving DecidableEq, Repr

/-- The operating-system state visible to this component: the descriptor
table, the terminal-device table, and the list of (process group, signal)
notifications the kernel has delivered so far. -/
structure OsState where
  fdTable : List (Int × FdTarget)
  devices : List (Nat × TerminalDevice)
  delivered : List (Nat × Nat)
  deriving DecidableEq, Repr

/-- Lookup in an association list. -/
def assocLookup {α β : Type} [DecidableEq α] (k : α) : List (α × β) → Option β
  | [] => none
  | (a, b) :: rest => if a = k then some b else assocLookup k rest

/-- Update the first binding of a key in an association list (no effect
when the key is absent). -/
def assocUpdate {α β : Type} [DecidableEq α] (k : α) (v : β) :
    List (α × β) → List (α × β)
  | [] => []
  | (a, b) :: rest =>
      if a = k then (a, v) :: rest else (a, b) :: assocUpdate k v rest

/-- Result of a C-level control call: return value 0, or return value -1
with `errno` set to the given code. -/
inductive CallResult where
  | ok : CallResult
  | error (errno : Nat) : CallResult
  deriving DecidableEq, Repr

/-- Modelled from the spec: the kernel's `TIOCSWINSZ` control operation,
which is not part of the repository sources.  Per the spec it updates the
kernel's window-size record for the device and causes the kernel to send a
window-change notification to the process group that owns the controlling
terminal, if any; it rejects a bad descriptor or a non-terminal target with
the platform error code, leaving the state unchanged. -/
def ioctl_TIOCSWINSZ (s : OsState) (fd : Int) (ws : winsize) :
    CallResult × OsState :=
  if fd < 0 then (.error EBADF, s)
  else
    match assocLookup fd s.fdTable with
    | none => (.error EBADF, s)
    | some .nonTerminal => (.error ENOTTY, s)
    | some (.terminal dev) =>
        match assocLookup dev s.devices with
        | none => (.error EBADF, s)
        | some d =>
            (.ok,
             { s with
               devices := assocUpdate dev { d with geometry := ws } s.devices
               delivered :=
                 match d.foregroundGroup with
                 | some p => s.delivered ++ [(p, SIGWINCH)]
                 | none => s.delivered })

/-- Embedding of the C function `terminal_set_winsize` from
`CTerminalHelpers.c`: it performs the single control call
`ioctl(fd, TIOCSWINSZ, ws)` and returns its result, nothing else. -/
def terminal_set_winsize (s : OsState) (fd : Int) (ws : winsize) :
    CallResult × OsState :=
  ioctl_TIOCSWINSZ s fd ws

/-- User-space memory holding `struct winsize` values, addressed by
pointer value. -/
def WsMemory : Type := List (Nat × winsize)

/-- Pointer-level embedding of `terminal_set_winsize`: the wrapper takes
the caller's pointer `p` and hands it to the control call without
dereferencing or writing through it; the kernel reads the structure from
user memory (failing with `EFAULT` when the address holds none) and never
writes back through a `TIOCSWINSZ` argument. -/
def terminal_set_winsize_mem (s : OsState) (m : WsMemory) (fd : Int)
    (p : Nat) : CallResult × OsState × WsMemory :=
  if fd < 0 then (.error EBADF, s, m)
  else
    match assocLookup fd s.fdTable with
    | none => (.error EBADF, s, m)
    | some .nonTerminal => (.error ENOTTY, s, m)
    | some (.terminal _) =>
        match assocLookup p m with
        | none => (.error EFAULT, s, m)
        | some ws =>
            ((ioctl_TIOCSWINSZ s fd ws).1, (ioctl_TIOCSWINSZ s fd ws).2, m)

/-- Result type of the caller-facing API: success with no value, or an
`OsError` carrying the platform error code. -/
inductive SetResult where
  | success : SetResult
  | osError (code : Nat) : SetResult
  deriving DecidableEq, Repr

/-- Modelled from the spec: the caller-facing
`SetWindowSize(descriptor, geometry) -> Result<(), OsError)` API, whose
implementation is not in the repository sources.  It invokes the C wrapper
and surfaces its outcome: success with no value when the control call
succeeds, otherwise `OsError` carrying the platform error code of the
failed control call. -/
def SetWindowSize (s : OsState) (fd : Int) (g : winsize) :
    SetResult × OsState :=
  match terminal_set_winsize s fd g with
  | (.ok, s2) => (.success, s2)
  | (.error c, s2) => (.osError c, s2)

/-- Modelled from the spec: the kernel's `TIOCGWINSZ` geometry query used
by the spec's "subsequent geometry query" wording; it reads the kernel's
window-size record for the descriptor. -/
def ioctl_TIOCGWINSZ (s : OsState) (fd : Int) : CallResult × Option winsize :=
  if fd < 0 then (.error EBADF, none)
  else
    match assocLookup fd s.fdTable with
    | none => (.error EBADF, none)
    | some .nonTerminal => (.error ENOTTY, none)
    | some (.terminal dev) =>
        match assocLookup dev s.devices with
        | none => (.error EBADF, none)
        | some d => (.ok, some d.geometry)

/-- The kernel-held window-size record visible through a descriptor, when
the descriptor refers to a terminal device. -/
def kernelGeometry (s : OsState) (fd : Int) : Option winsize :=
  match assocLookup fd s.fdTable with
  | some (.terminal dev) =>
      (assocLookup dev s.devices).map TerminalDevice.geometry
  | _ => none

/-- Follows the spec's words, for the refinement claim: `SetWindowSize`
performs exactly one underlying window-size-set control call on its
arguments, with no validation of the descriptor or geometry beforehand,
and translates return value 0 to success and a failure to `OsError` with
the untranslated platform code. -/
def SetWindowSize_specDirect (s : OsState) (fd : Int) (g : winsize) :
    SetResult × OsState :=
  let r := ioctl_TIOCSWINSZ s fd g
  (match r.1 with
   | .ok => SetResult.success
   | .error c => SetResult.osError c, r.2)

/-- A sequence of `SetWindowSize` calls, threading only the
operating-system state: the component itself holds no state, so the run
state is nothing but `OsState`.  Returns the final state and the list of
per-call results. -/
def runCalls (s : OsState) : List (Int × winsize) → OsState × List SetResult
  | [] => (s, [])
  | (fd, g) :: rest =>
      let r := SetWindowSize s fd g
      let t := runCalls r.2 rest
      (t.1, r.1 :: t.2)

lemma assocLookup_update_self {α β : Type} [DecidableEq α] (k : α) (v : β)
    (l : List (α × β)) (b : β) (h : assocLookup k l = some b) :
    assocLookup k (assocUpdate k v l) = some v := by
  induction l with
  | nil => simp [assocLookup] at h
  | cons hd tl ih =>
      obtain ⟨a, b'⟩ := hd
      by_cases hak : a = k
      · subst hak
        simp [assocLookup, assocUpdate]
      · simp [assocLookup, assocUpdate, hak] at h ⊢
        exact ih h

lemma set_valid_eq (s : OsState) (fd : Int) (dev : Nat) (d : TerminalDevice)
    (g : winsize) (hfd : 0 ≤ fd)
    (h1 : assocLookup fd s.fdTable = some (FdTarget.terminal dev))
    (h2 : assocLookup dev s.devices = some d) :
    SetWindowSize s fd g =
      (SetResult.success,
       { s with
         devices := assocUpdate dev { d with geometry := g } s.devices
         delivered :=
           match d.foregroundGroup with
           | some p => s.delivered ++ [(p, SIGWINCH)]
           | none => s.delivered }) := by
  simp [SetWindowSize, terminal_set_winsize, ioctl_TIOCSWINSZ,
    not_lt.mpr hfd, h1, h2]

/-- A concrete operating-system state used by witnesses: descriptors 3
(master) and 4 (slave) refer to terminal device 1, whose foreground process
group is 42; descriptor 5 is an open non-terminal file. -/
def demoState : OsState :=
  { fdTable := [(3, FdTarget.terminal 1), (4, FdTarget.terminal 1),
                (5, FdTarget.nonTerminal)]
    devices := [(1, { geometry := ⟨25, 81, 1, 2⟩, foregroundGroup := some 42 })]
    delivered := [] }

/-- C1: for every descriptor and geometry, SetWindowSize returns success
exactly when the underlying control call succeeds, and otherwise fails with
an OsError whose code is exactly the platform error code produced by the
failed control call, with no translation, local recovery, or retry. -/
theorem C1_osError_passthrough :
    ∀ (s : OsState) (fd : Int) (g : winsize) (c : Nat),
      ((SetWindowSize s fd g).1 = SetResult.success ↔
        (ioctl_TIOCSWINSZ s fd g).1 = CallResult.ok) ∧
      ((SetWindowSize s fd g).1 = SetResult.osError c ↔
        (ioctl_TIOCSWINSZ s fd g).1 = CallResult.error c) := by
  intro s fd g c
  rcases hr : ioctl_TIOCSWINSZ s fd g with ⟨r, s2⟩
  cases r <;> simp [SetWindowSize, terminal_set_winsize, hr]

/-- C2: for every valid open pseudo-terminal descriptor and geometry,
SetWindowSize succeeds and a subsequent geometry query on the descriptor
returns exactly that geometry. -/
theorem C2_set_then_query (s : OsState) (fd : Int) (dev : Nat)
    (d : TerminalDevice) (g : winsize) (hfd : 0 ≤ fd)
    (h1 : assocLookup fd s.fdTable = some (FdTarget.terminal dev))
    (h2 : assocLookup dev s.devices = some d) :
    (SetWindowSize s fd g).1 = SetResult.success ∧
    ioctl_TIOCGWINSZ (SetWindowSize s fd g).2 fd = (CallResult.ok, some g) := by
  rw [set_valid_eq s fd dev d g hfd h1 h2]
  simp [ioctl_TIOCGWINSZ, not_lt.mpr hfd, h1,
    assocLookup_update_self dev { d with geometry := g } s.devices d h2]

/-- Witness for C2 at a concrete state, descriptor and geometry. -/
theorem C2_witness :
    (SetWindowSize demoState 3 ⟨24, 80, 0, 0⟩).1 = SetResult.success ∧
    ioctl_TIOCGWINSZ (SetWindowSize demoState 3 ⟨24, 80, 0, 0⟩).2 3 =
      (CallResult.ok, some ⟨24, 80, 0, 0⟩) :=
  C2_set_then_query demoState 3 1 ⟨⟨25, 81, 1, 2⟩, some 42⟩ ⟨24, 80, 0, 0⟩
    (by decide) (by decide) (by decide)

/-- C3: SetWindowSize is atomic with respect to the kernel-held geometry:
either it succeeds and the new geometry is fully applied, or it fails with
an OsError and the operating-system state (in particular the kernel-held
geometry for the descriptor) is unchanged; for a descriptor absent from
the descriptor table the call fails with EBADF and changes nothing. -/
theorem C3_atomic (s : OsState) (fd : Int) (g : winsize) :
    (((SetWindowSize s fd g).1 = SetResult.success ∧
      kernelGeometry (SetWindowSize s fd g).2 fd = some g) ∨
     (∃ c, (SetWindowSize s fd g).1 = SetResult.osError c ∧
           (SetWindowSize s fd g).2 = s)) ∧
    (assocLookup fd s.fdTable = none →
      (SetWindowSize s fd g).1 = SetResult.osError EBADF ∧
      (SetWindowSize s fd g).2 = s) := by
  by_cases hfd : fd < 0
  · constructor
    · exact Or.inr ⟨EBADF, by simp [SetWindowSize, terminal_set_winsize,
        ioctl_TIOCSWINSZ, hfd]⟩
    · intro _
      simp [SetWindowSize, terminal_set_winsize, ioctl_TIOCSWINSZ, hfd]
  · cases h1 : assocLookup fd s.fdTable with
    | none =>
        constructor
        · exact Or.inr ⟨EBADF, by simp [SetWindowSize, terminal_set_winsize,
            ioctl_TIOCSWINSZ, hfd, h1]⟩
        · intro _
          simp [SetWindowSize, terminal_set_winsize, ioctl_TIOCSWINSZ, hfd, h1]
    | some t =>
        cases t with
        | nonTerminal =>
            refine ⟨Or.inr ⟨ENOTTY, ?_⟩, fun hc => Option.noConfusion hc⟩
            simp [SetWindowSize, terminal_set_winsize, ioctl_TIOCSWINSZ,
              hfd, h1]
        | terminal dev =>
            refine ⟨?_, fun hc => Option.noConfusion hc⟩
            cases h2 : assocLookup dev s.devices with
            | none =>
                exact Or.inr ⟨EBADF, by simp [SetWindowSize,
                  terminal_set_winsize, ioctl_TIOCSWINSZ, hfd, h1, h2]⟩
            | some d =>
                left
                rw [set_valid_eq s fd dev d g (not_lt.mp hfd) h1 h2]
                simp [kernelGeometry, h1,
                  assocLookup_update_self dev { d with geometry := g }
                    s.devices d h2]

/-- Witness for C3 at a concrete closed descriptor. -/
theorem C3_witness :
    (SetWindowSize demoState 7 ⟨1, 2, 3, 4⟩).1 = SetResult.osError EBADF ∧
    (SetWindowSize demoState 7 ⟨1, 2, 3, 4⟩).2 = demoState :=
  (C3_atomic demoState 7 ⟨1, 2, 3, 4⟩).2 (by decide)

/-- C4: for every valid open descriptor and geometry, calling SetWindowSize
twice in succession succeeds both times and leaves the same final
kernel-held geometry as calling it once. -/
theorem C4_idempotent (s : OsState) (fd : Int) (dev : Nat)
    (d : TerminalDevice) (g : winsize) (hfd : 0 ≤ fd)
    (h1 : assocLookup fd s.fdTable = some (FdTarget.terminal dev))
    (h2 : assocLookup dev s.devices = some d) :
    (SetWindowSize s fd g).1 = SetResult.success ∧
    (SetWindowSize (SetWindowSize s fd g).2 fd g).1 = SetResult.success ∧
    kernelGeometry (SetWindowSize (SetWindowSize s fd g).2 fd g).2 fd =
      kernelGeometry (SetWindowSize s fd g).2 fd := by
  have h2b := assocLookup_update_self dev { d with geometry := g }
    s.devices d h2
  have e1 := set_valid_eq s fd dev d g hfd h1 h2
  have e1s : (SetWindowSize s fd g).2 =
      { s with
        devices := assocUpdate dev { d with geometry := g } s.devices
        delivered :=
          match d.foregroundGroup with
          | some p => s.delivered ++ [(p, SIGWINCH)]
          | none => s.delivered } := by rw [e1]
  have e2 := set_valid_eq
      { s with
        devices := assocUpdate dev { d with geometry := g } s.devices
        delivered :=
          match d.foregroundGroup with
          | some p => s.delivered ++ [(p, SIGWINCH)]
          | none => s.delivered }
      fd dev { d with geometry := g } g hfd h1 h2b
  refine ⟨by rw [e1], by rw [e1s, e2], ?_⟩
  rw [e1s, e2]
  simp [kernelGeometry, h1, h2b,
    assocLookup_update_self dev { d with geometry := g }
      (assocUpdate dev { d with geometry := g } s.devices)
      { d with geometry := g } h2b]

/-- Witness for C4 at a concrete state, descriptor and geometry. -/
theorem C4_witness :
    (SetWindowSize demoState 3 ⟨24, 80, 0, 0⟩).1 = SetResult.success ∧
    (SetWindowSize (SetWindowSize demoState 3 ⟨24, 80, 0, 0⟩).2 3
        ⟨24, 80, 0, 0⟩).1 = SetResult.success ∧
    kernelGeometry (SetWindowSize (SetWindowSize demoState 3
        ⟨24, 80, 0, 0⟩).2 3 ⟨24, 80, 0, 0⟩).2 3 =
      kernelGeometry (SetWindowSize demoState 3 ⟨24, 80, 0, 0⟩).2 3 :=
  C4_idempotent demoState 3 1 ⟨⟨25, 81, 1, 2⟩, some 42⟩ ⟨24, 80, 0, 0⟩
    (by decide) (by decide) (by decide)

/-- C5: calling SetWindowSize with descriptor -1 and geometry
rows 24, cols 80, xpixel 0, ypixel 0 fails, with the OsError code EBADF,
the platform code for a bad file descriptor, and the state unchanged. -/
theorem C5_bad_descriptor :
    ∀ s : OsState,
      SetWindowSize s (-1) ⟨24, 80, 0, 0⟩ = (SetResult.osError EBADF, s) := by
  intro s
  simp [SetWindowSize, terminal_set_winsize, ioctl_TIOCSWINSZ,
    show (-1 : Int) < 0 by decide]

/-- C6: SetWindowSize performs no validation of the descriptor or geometry
before invoking the operating system: its result is extensionally equal to
the result of the single underlying TIOCSWINSZ control call on the same
arguments, lifted unchanged into the result type. -/
theorem C6_no_prior_validation :
    ∀ (s : OsState) (fd : Int) (g : winsize),
      SetWindowSize s fd g = SetWindowSize_specDirect s fd g := by
  intro s fd g
  unfold SetWindowSize SetWindowSize_specDirect terminal_set_winsize
  rcases hr : ioctl_TIOCSWINSZ s fd g with ⟨r, s2⟩
  cases r <;> simp

lemma runCalls_append_single (s : OsState) (h : List (Int × winsize))
    (fd : Int) (g : winsize) :
    runCalls s (h ++ [(fd, g)]) =
      ((SetWindowSize (runCalls s h).1 fd g).2,
       (runCalls s h).2 ++ [(SetWindowSize (runCalls s h).1 fd g).1]) := by
  induction h generalizing s with
  | nil => simp [runCalls]
  | cons c rest ih =>
      obtain ⟨fd2, g2⟩ := c
      simp [runCalls, ih]

/-- C7: the component holds no state across calls: the outcome of a
SetWindowSize call depends only on the operating-system state at the time
of the call and the arguments, independent of any earlier call history
through this component. -/
theorem C7_stateless (s t : OsState) (h1 h2 : List (Int × winsize))
    (fd : Int) (g : winsize)
    (heq : (runCalls s h1).1 = (runCalls t h2).1) :
    (runCalls s (h1 ++ [(fd, g)])).2.getLast? =
      (runCalls t (h2 ++ [(fd, g)])).2.getLast? ∧
    (runCalls s (h1 ++ [(fd, g)])).1 = (runCalls t (h2 ++ [(fd, g)])).1 := by
  rw [runCalls_append_single, runCalls_append_single, heq]
  simp

/-- Witness for C7: an empty history and a history containing a failed
call reach the same operating-system state, so the next call agrees. -/
theorem C7_witness :
    (runCalls demoState ([] ++ [(3, ⟨24, 80, 0, 0⟩)])).2.getLast? =
      (runCalls demoState ([(7, ⟨1, 2, 3, 4⟩)] ++
        [(3, ⟨24, 80, 0, 0⟩)])).2.getLast? ∧
    (runCalls demoState ([] ++ [(3, ⟨24, 80, 0, 0⟩)])).1 =
      (runCalls demoState ([(7, ⟨1, 2, 3, 4⟩)] ++
        [(3, ⟨24, 80, 0, 0⟩)])).1 :=
  C7_stateless demoState demoState [] [(7, ⟨1, 2, 3, 4⟩)] 3 ⟨24, 80, 0, 0⟩
    (by decide)

/-- C8: on a successful SetWindowSize call the kernel's window-size record
for the device is updated and a window-change notification (SIGWINCH) is
delivered to the process group that owns the controlling terminal; in
particular, setting the size on a pseudo-terminal master updates the
geometry seen through the slave descriptor and notifies the process group
attached to the slave side. -/
theorem C8_sigwinch_delivered (s : OsState) (master slave : Int) (dev : Nat)
    (d : TerminalDevice) (p : Nat) (g : winsize) (hm : 0 ≤ master)
    (h1 : assocLookup master s.fdTable = some (FdTarget.terminal dev))
    (hs : assocLookup slave s.fdTable = some (FdTarget.terminal dev))
    (h2 : assocLookup dev s.devices = some d)
    (hp : d.foregroundGroup = some p) :
    (SetWindowSize s master g).1 = SetResult.success ∧
    kernelGeometry (SetWindowSize s master g).2 slave = some g ∧
    (p, SIGWINCH) ∈ (SetWindowSize s master g).2.delivered := by
  rw [set_valid_eq s master dev d g hm h1 h2]
  refine ⟨rfl, ?_, ?_⟩
  · simp [kernelGeometry, hs,
      assocLookup_update_self dev { d with geometry := g } s.devices d h2]
  · simp [hp]

/-- Witness for C8 at a concrete state: master descriptor 3, slave
descriptor 4, foreground process group 42. -/
theorem C8_witness :
    (SetWindowSize demoState 3 ⟨40, 120, 0, 0⟩).1 = SetResult.success ∧
    kernelGeometry (SetWindowSize demoState 3 ⟨40, 120, 0, 0⟩).2 4 =
      some ⟨40, 120, 0, 0⟩ ∧
    (42, SIGWINCH) ∈ (SetWindowSize demoState 3 ⟨40, 120, 0, 0⟩).2.delivered :=
  C8_sigwinch_delivered demoState 3 4 1 ⟨⟨25, 81, 1, 2⟩, some 42⟩ 42
    ⟨40, 120, 0, 0⟩ (by decide) (by decide) (by decide) (by decide)
    (by decide)

/-- C9: the wrapper never writes through the geometry pointer: for every
state, memory, descriptor and pointer, the caller's memory after a
terminal_set_winsize call is exactly the memory before it. -/
theorem C9_memory_unchanged :
    ∀ (s : OsState) (m : WsMemory) (fd : Int) (p : Nat),
      (terminal_set_winsize_mem s m fd p).2.2 = m := by
  intro s m fd p
  by_cases hfd : fd < 0
  · simp [terminal_set_winsize_mem, hfd]
  · cases h1 : assocLookup fd s.fdTable with
    | none => simp [terminal_set_winsize_mem, hfd, h1]
    | some t =>
        cases t with
        | nonTerminal => simp [terminal_set_winsize_mem, hfd, h1]
        | terminal dev =>
            cases h2 : assocLookup p m with
            | none => simp [terminal_set_winsize_mem, hfd, h1, h2]
            | some ws => simp [terminal_set_winsize_mem, hfd, h1, h2]

/-- C10: terminal_set_winsize is total over its whole input domain: for
every state, descriptor (negative ones included) and geometry it is
exactly the one control call, whose outcome is either success or a
returned error code — and at the pointer level every call likewise
returns either success or an error code, never anything else. -/
theorem C10_total :
    ∀ (s : OsState) (fd : Int) (g : winsize) (m : WsMemory) (p : Nat),
      terminal_set_winsize s fd g = ioctl_TIOCSWINSZ s fd g ∧
      ((terminal_set_winsize s fd g).1 = CallResult.ok ∨
       ∃ c, (terminal_set_winsize s fd g).1 = CallResult.error c) ∧
      ((terminal_set_winsize_mem s m fd p).1 = CallResult.ok ∨
       ∃ c, (terminal_set_winsize_mem s m fd p).1 = CallResult.error c) := by
  intro s fd g m p
  refine ⟨rfl, ?_, ?_⟩
  · cases h : (terminal_set_winsize s fd g).1 with
    | ok => exact Or.inl rfl
    | error c => exact Or.inr ⟨c, rfl⟩
  · cases h : (terminal_set_winsize_mem s m fd p).1 with
    | ok => exact Or.inl rfl
    | error c => exact Or.inr ⟨c, rfl⟩
